import Mathlib

/-!
Verification development for the multiparty send/receive WebRTC example
(`webrtc/multiparty-sendrecv/gst-rust/src/main.rs`).

The shallow embedding below translates the orchestration core of the
program: the JSON negotiation payload schema (`JsonMsg`), the per-peer
session handlers (`handle_sdp`, `handle_ice`, `on_answer_created`), the
session registry (`add_peer`, `remove_peer`, `handle_websocket_message`,
`handle_pipeline_message`, `relayout_videomixer`), and the single event
loop (`runLoop`).

External collaborators (the GStreamer media engine, the SDP text parser,
the JSON wire codec and the WebSocket transport) are modelled as explicit
parameters (`Env`) or as traces of the actions the program invokes on
them (`EngineAction`, `OutMsg`).  Asynchronous continuations
(`call_async`, promises) are serialized in program order, which is the
order the code registers and resolves them for a single peer.
-/

set_option linter.unusedVariables false

/-- `VIDEO_WIDTH` constant from the source (output canvas width). -/
def VIDEO_WIDTH : Int := 1024

/-- `VIDEO_HEIGHT` constant from the source (output canvas height). -/
def VIDEO_HEIGHT : Int := 768

/-- JSON documents at the schema level.  The spec excludes the JSON wire
encoding and only fixes the schema, so payloads are modelled as trees. -/
inductive Json where
  | str (s : String)
  | num (n : Nat)
  | obj (fields : List (String × Json))

/-- The `JsonMsg` enum from the source: negotiation payloads embedded in
`ROOM_PEER_MSG` lines.  `serde(rename_all = "lowercase")` tags the
variants `"ice"` and `"sdp"`; the field renames are `"sdpMLineIndex"`
and `"type"`. -/
inductive JsonMsg where
  | ice (candidate : String) (sdp_mline_index : Nat)
  | sdp (type_ : String) (sdp : String)
deriving DecidableEq

/-- Serde encoding of `JsonMsg` to the schema of the wire format:
externally tagged, lower-cased variant names, renamed fields. -/
def JsonMsg.toJson : JsonMsg → Json
  | .ice candidate sdp_mline_index =>
      .obj [("ice", .obj [("candidate", .str candidate),
                          ("sdpMLineIndex", .num sdp_mline_index)])]
  | .sdp type_ body =>
      .obj [("sdp", .obj [("type", .str type_), ("sdp", .str body)])]

/-- Serde decoding of `JsonMsg` from the documented schema. -/
def JsonMsg.fromJson : Json → Option JsonMsg
  | .obj [("ice", .obj [("candidate", .str cand),
                        ("sdpMLineIndex", .num idx)])] =>
      some (.ice cand idx)
  | .obj [("sdp", .obj [("type", .str type_), ("sdp", .str body)])] =>
      some (.sdp type_ body)
  | _ => none

/-- Accumulate decimal digits, as `str::parse::<u32>` does. -/
def digitsToNat : List Char → Nat → Nat
  | [], acc => acc
  | c :: t, acc => digitsToNat t (acc * 10 + (c.toNat - 48))

/-- Model of Rust `str::parse::<u32>`: an optional leading `+`, then one
or more ASCII digits, and the value must fit in 32 bits. -/
def parse_u32 (s : String) : Option Nat :=
  let cs :=
    match s.data with
    | '+' :: rest => rest
    | l => l
  if cs.isEmpty then none
  else if cs.all (fun c => c.isDigit) then
    let v := digitsToNat cs 0
    if v < 4294967296 then some v else none
  else none

/-- Model of Rust `str::starts_with`. -/
def strStartsWith (s p : String) : Bool := p.data.isPrefixOf s.data

/-- Model of Rust byte-slicing `&msg[n..]` for the ASCII-only constant
offsets used by the dispatcher. -/
def strDrop (s : String) (n : Nat) : String := String.mk (s.data.drop n)

/-- Helper for `splitn2`: scan for the first space. -/
def splitn2Aux : List Char → List Char → List Char × Option (List Char)
  | acc, [] => (acc.reverse, none)
  | acc, c :: rest =>
      if c = ' ' then (acc.reverse, some rest) else splitn2Aux (c :: acc) rest

/-- Model of Rust `s.splitn(2, ' ')`: the first component is the text
before the first space (the whole string if there is none); the second is
the remainder after that space, when a space exists. -/
def splitn2 (s : String) : String × Option String :=
  let r := splitn2Aux [] s.data
  (String.mk r.1, r.2.map String.mk)

/-- The two `gst_webrtc::WebRTCSDPType` values the program constructs. -/
inductive SDPType where
  | offer
  | answer
deriving DecidableEq

/-- Actions the orchestrator invokes on the media engine (the `emit`
calls on `webrtcbin`), recorded as a trace. -/
inductive EngineAction where
  | setRemoteDescription (kind : SDPType) (sdp : String)
  | setLocalDescription (kind : SDPType) (sdp : String)
  | createOffer
  | createAnswer
  | addIceCandidate (sdp_mline_index : Nat) (candidate : String)
deriving DecidableEq

/-- Outbound WebSocket messages at the schema level: `ROOM_PEER_MSG`
lines carrying a negotiation payload, and transport-level pongs. -/
inductive OutMsg where
  | peerMsg (peer_id : Nat) (payload : JsonMsg)
  | pong (data : List Nat)
deriving DecidableEq

/-- Everything a peer handler does besides returning a `Result`:
engine actions, outbound emissions, and bus errors posted with
`gst_element_error!`. -/
inductive PeerEvent where
  | engine (a : EngineAction)
  | emit (m : OutMsg)
  | busError (msg : String)
deriving DecidableEq

/-- State of one peer that the orchestration logic observes.  The
`bin`/`webrtcbin` element handles live in the engine; their use is
recorded via `EngineAction`s. -/
structure PeerSt where
  peer_id : Nat
deriving DecidableEq

/-- External collaborators of a peer session: the JSON decoder
(`serde_json::from_str`, wire codec excluded from the core), the SDP
text parser (`gst_sdp::SDPMessage::parse_buffer`, success only), and the
outcome of the engine's `create-answer` promise. -/
structure Env where
  fromStr : String → Option JsonMsg
  sdpParse : String → Bool
  answerReply : Except String String

/-- `Peer::on_answer_created`: on a failed promise, bail; otherwise set
the local description to the produced answer and emit the
`Sdp{answer}` payload addressed to this peer id. -/
def on_answer_created (p : PeerSt) (reply : Except String String) :
    Except String Unit × List PeerEvent :=
  match reply with
  | .error e => (.error ("Answer creation future got no reponse: " ++ e), [])
  | .ok answer =>
      (.ok (),
       [.engine (.setLocalDescription .answer answer),
        .emit (.peerMsg p.peer_id (.sdp "answer" answer))])

/-- `Peer::handle_sdp`.  An `"answer"` is parsed and, when parseable,
forwarded to the engine as the remote description (no state check
appears in the source).  An `"offer"` is parsed, then the asynchronous
continuation sets the remote description, requests an answer and runs
`on_answer_created` on the promise result; a failing continuation posts
a bus error.  Any other type string bails. -/
def handle_sdp (env : Env) (p : PeerSt) (type_ sdp : String) :
    Except String Unit × List PeerEvent :=
  if type_ = "answer" then
    if env.sdpParse sdp then
      (.ok (), [.engine (.setRemoteDescription .answer sdp)])
    else
      (.error "Failed to parse SDP answer", [])
  else if type_ = "offer" then
    if env.sdpParse sdp then
      (.ok (),
        [.engine (.setRemoteDescription .offer sdp), .engine .createAnswer] ++
          (match on_answer_created p env.answerReply with
           | (.ok _, evs) => evs
           | (.error e, evs) =>
               evs ++ [.busError ("Failed to send SDP answer: " ++ e)]))
    else
      (.error "Failed to parse SDP offer", [])
  else
    (.error ("Sdp type is not \x22answer\x22 but \x22" ++ type_ ++ "\x22"), [])

/-- `Peer::handle_ice`: forward the candidate to the engine
unconditionally and succeed. -/
def handle_ice (p : PeerSt) (sdp_mline_index : Nat) (candidate : String) :
    Except String Unit × List PeerEvent :=
  (.ok (), [.engine (.addIceCandidate sdp_mline_index candidate)])

/-- Sorted-association-list model of the `BTreeMap<u32, Peer>` peer
table: lookup. -/
def tblLookup : List (Nat × PeerSt) → Nat → Option PeerSt
  | [], _ => none
  | (k, v) :: t, id => if k = id then some v else tblLookup t id

/-- Peer-table insert, keeping keys sorted (`BTreeMap::insert`). -/
def tblInsert : List (Nat × PeerSt) → Nat → PeerSt → List (Nat × PeerSt)
  | [], k, v => [(k, v)]
  | (k0, v0) :: t, k, v =>
      if k < k0 then (k, v) :: (k0, v0) :: t
      else if k = k0 then (k, v) :: t
      else (k0, v0) :: tblInsert t k v

/-- Peer-table removal (`BTreeMap::remove`): drops the entry with the
given key, if present. -/
def tblRemove : List (Nat × PeerSt) → Nat → List (Nat × PeerSt)
  | [], _ => []
  | (k0, v0) :: t, k => if k0 = k then t else (k0, v0) :: tblRemove t k

/-- The application state the orchestration logic mutates: the peer
table.  The pipeline, tees and mixers are engine handles whose use is
recorded as traces. -/
structure AppState where
  peers : List (Nat × PeerSt)
deriving DecidableEq

/-- `App::add_peer`: parse the id, fail if it is already present,
otherwise build the peer subgraph (engine side) and insert the peer into
the table.  Returns the new state together with the `Result`; on failure
the state is returned unchanged. -/
def add_peer (st : AppState) (peer : String) (offer : Bool) :
    AppState × Except String Unit :=
  match parse_u32 peer with
  | none => (st, .error "Can\x27t parse peer id")
  | some peer_id =>
      match tblLookup st.peers peer_id with
      | some _ => (st, .error ("Peer " ++ toString peer_id ++ " already called"))
      | none =>
          ({ peers := tblInsert st.peers peer_id { peer_id := peer_id } }, .ok ())

/-- `App::remove_peer`: parse the id; removing an absent id is a
successful no-op, otherwise the entry is evicted and the subgraph is
detached asynchronously (engine side). -/
def remove_peer (st : AppState) (peer : String) : AppState × Except String Unit :=
  match parse_u32 peer with
  | none => (st, .error "Can\x27t parse peer id")
  | some peer_id => ({ peers := tblRemove st.peers peer_id }, .ok ())

/-- `App::handle_websocket_message`: the signaling dispatcher.  Returns
the new state, the `Result`, and the peer events produced while handling
the line. -/
def handle_websocket_message (env : Env) (st : AppState) (msg : String) :
    AppState × Except String Unit × List PeerEvent :=
  if strStartsWith msg "ERROR" then
    (st, .error ("Got error message: " ++ msg), [])
  else if strStartsWith msg "ROOM_PEER_MSG " then
    let split := splitn2 (strDrop msg 14)
    match parse_u32 split.1 with
    | none => (st, .error "Can\x27t parse peer id", [])
    | some peer_id =>
        match tblLookup st.peers peer_id with
        | none => (st, .error ("Can\x27t find peer " ++ toString peer_id), [])
        | some peer =>
            match split.2 with
            | none => (st, .error "Can\x27t parse peer message", [])
            | some m =>
                match env.fromStr m with
                | none => (st, .error "invalid JSON", [])
                | some (.sdp type_ body) =>
                    let r := handle_sdp env peer type_ body
                    (st, r.1, r.2)
                | some (.ice cand idx) =>
                    let r := handle_ice peer idx cand
                    (st, r.1, r.2)
  else if strStartsWith msg "ROOM_PEER_JOINED " then
    let split := splitn2 (strDrop msg 17)
    let r := add_peer st split.1 false
    (r.1, r.2, [])
  else if strStartsWith msg "ROOM_PEER_LEFT " then
    let split := splitn2 (strDrop msg 15)
    let r := remove_peer st split.1
    (r.1, r.2, [])
  else
    (st, .ok (), [])

/-- GStreamer bus messages as the orchestrator distinguishes them. -/
inductive GstMessage where
  | error (src msg debug : String)
  | warning (debug : String)
  | other

/-- `App::handle_pipeline_message`: an error message bails with the
formatted text, a warning is printed (returned as a log line), anything
else is ignored. -/
def handle_pipeline_message (m : GstMessage) : Except String Unit × List String :=
  match m with
  | .error src msg debug =>
      (.error ("Error from element " ++ src ++ ": " ++ msg ++ " (" ++ debug ++ ")"),
       [])
  | .warning debug => (.ok (), ["Warning: \x22" ++ debug ++ "\x22"])
  | .other => (.ok (), [])

/-- Inbound WebSocket frames, as matched in `run`. -/
inductive WsIn where
  | close
  | ping (data : List Nat)
  | pong (data : List Nat)
  | binary (data : List Nat)
  | text (s : String)

/-- One iteration's input in the `futures::select!` loop of `run`:
an inbound WebSocket frame, a pipeline bus message, or readiness of the
outbound-message channel. -/
inductive LoopEvent where
  | wsIn (m : WsIn)
  | gstIn (m : GstMessage)
  | outReady

/-- State threaded through the event loop: the application state, the
outbound channel contents, the messages already sent on the transport,
the printed log lines, and the cumulative peer-event trace. -/
structure LoopState where
  app : AppState
  outbox : List OutMsg
  sent : List OutMsg
  logs : List String
  engineTrace : List PeerEvent

/-- Outbound emissions contained in a peer-event trace. -/
def emittedOf (evs : List PeerEvent) : List OutMsg :=
  evs.filterMap (fun e => match e with | .emit m => some m | _ => none)

/-- The event loop of `run`, folded over a finite schedule of inputs.
Close frames break the loop cleanly; ping is answered with pong; text
frames are dispatched, and a dispatch error is only printed ("Failed to
parse message: ...") before the loop continues; pipeline messages go
through `handle_pipeline_message`, whose error return stops the loop and
propagates (the `?` operator); outbound-channel items are forwarded to
the transport sink. -/
def runLoop (env : Env) : List LoopEvent → LoopState → LoopState × Except String Unit
  | [], st => (st, .ok ())
  | ev :: rest, st =>
      match ev with
      | .wsIn .close => (st, .ok ())
      | .wsIn (.ping d) => runLoop env rest { st with sent := st.sent ++ [.pong d] }
      | .wsIn (.pong _) => runLoop env rest st
      | .wsIn (.binary _) => runLoop env rest st
      | .wsIn (.text s) =>
          let r := handle_websocket_message env st.app s
          runLoop env rest
            { st with
              app := r.1,
              outbox := st.outbox ++ emittedOf r.2.2,
              engineTrace := st.engineTrace ++ r.2.2,
              logs := st.logs ++
                (match r.2.1 with
                 | .ok _ => []
                 | .error e => ["Failed to parse message: " ++ e]) }
      | .gstIn m =>
          let r := handle_pipeline_message m
          (match r.1 with
           | .error e => (st, .error e)
           | .ok _ => runLoop env rest { st with logs := st.logs ++ r.2 })
      | .outReady =>
          match st.outbox with
          | [] => runLoop env rest st
          | m :: ms =>
              runLoop env rest { st with outbox := ms, sent := st.sent ++ [m] }

/-- The per-pad loop body of `App::relayout_videomixer`: place `k` tiles
of size `w × h`, advancing `x` by `w` and wrapping to the next row when
`x` reaches the canvas width. -/
def layoutLoop : Nat → Int → Int → Int → Int → List (Int × Int × Int × Int)
  | 0, _, _, _, _ => []
  | k + 1, x, y, w, h =>
      (x, y, w, h) ::
        (if VIDEO_WIDTH ≤ x + w then layoutLoop k 0 (y + h) w h
         else layoutLoop k (x + w) y w h)

/-- The grid chosen by `relayout_videomixer` for `npads` non-background
mixer inputs (the `(width, height)` pair of columns × rows in the
source; more than 16 inputs keep the 4×4 grid). -/
def mixerGrid (npads : Nat) : Int × Int :=
  if npads ≤ 1 then (1, 1)
  else if npads ≤ 4 then (2, 2)
  else if npads ≤ 16 then (4, 4)
  else (4, 4)

/-- `App::relayout_videomixer` on the current total number of mixer sink
pads: nothing to do when there are no pads; otherwise the first
(background) pad is ignored and the remaining `total - 1` pads receive
`(xpos, ypos, width, height)` tiles. -/
def relayout_videomixer (total : Nat) : List (Int × Int × Int × Int) :=
  if total = 0 then []
  else
    layoutLoop (total - 1) 0 0
      (VIDEO_WIDTH / (mixerGrid (total - 1)).1)
      (VIDEO_HEIGHT / (mixerGrid (total - 1)).2)

/-- Grid side length stated by the spec: columns = rows = 1 for n ≤ 1,
2 for n ≤ 4, 4 for n ≤ 16 and also beyond (capped).  Stated from the
spec's words, to be compared with `relayout_videomixer`. -/
def specCols (n : Nat) : Nat :=
  if n ≤ 1 then 1 else if n ≤ 4 then 2 else 4

/-- Row-major tile position for index `i` in a grid with `c` columns of
`w × h` cells. -/
def tilePos (c : Nat) (w h : Int) (i : Nat) : Int × Int × Int × Int :=
  (((i % c : Nat) : Int) * w, ((i / c : Nat) : Int) * h, w, h)

/-- Every tile lies inside the fixed output canvas. -/
def tilesInBounds (l : List (Int × Int × Int × Int)) : Prop :=
  ∀ t ∈ l, 0 ≤ t.1 ∧ 0 ≤ t.2.1 ∧
    t.1 + t.2.2.1 ≤ VIDEO_WIDTH ∧ t.2.1 + t.2.2.2 ≤ VIDEO_HEIGHT

instance (l : List (Int × Int × Int × Int)) : Decidable (tilesInBounds l) := by
  unfold tilesInBounds; infer_instance

/-- Two tiles occupy disjoint canvas areas. -/
def tileDisjoint (a b : Int × Int × Int × Int) : Prop :=
  a.1 + a.2.2.1 ≤ b.1 ∨ b.1 + b.2.2.1 ≤ a.1 ∨
    a.2.1 + a.2.2.2 ≤ b.2.1 ∨ b.2.1 + b.2.2.2 ≤ a.2.1

instance : DecidableRel tileDisjoint := by
  intro a b; unfold tileDisjoint; infer_instance

/-- A concrete environment for closed instances: no JSON payloads, an
SDP parser that accepts any nonempty body, and a successful
`create-answer` promise. -/
def env0 : Env :=
  { fromStr := fun _ => none
    sdpParse := fun s => !s.isEmpty
    answerReply := .ok "sdpAnswerA" }

/-- Initial loop state: empty peer table, nothing sent or logged. -/
def st0 : LoopState :=
  { app := { peers := [] }, outbox := [], sent := [], logs := [], engineTrace := [] }

/-- A table that already contains peer `7`, for closed dispatch
instances. -/
def stw : AppState := { peers := [(7, { peer_id := 7 })] }

/-- An environment whose JSON decoder recognizes one concrete ICE
payload, for closed dispatch instances. -/
def envw : Env :=
  { fromStr := fun s => if s = "icejson" then some (.ice "cand" 2) else none
    sdpParse := fun _ => true
    answerReply := .ok "ansA" }

theorem tblLookup_insert : ∀ (l : List (Nat × PeerSt)) (k : Nat) (v : PeerSt),
    tblLookup (tblInsert l k v) k = some v
  | [], k, v => by simp [tblInsert, tblLookup]
  | (k0, v0) :: t, k, v => by
      by_cases h1 : k < k0
      · simp [tblInsert, h1, tblLookup]
      · by_cases h2 : k = k0
        · simp [tblInsert, h1, h2, tblLookup]
        · unfold tblInsert
          rw [if_neg h1, if_neg h2]
          unfold tblLookup
          rw [if_neg (fun hh => h2 hh.symm)]
          exact tblLookup_insert t k v

theorem tblRemove_absent : ∀ (l : List (Nat × PeerSt)) (k : Nat),
    tblLookup l k = none → tblRemove l k = l
  | [], _, _ => rfl
  | (k0, v0) :: t, k, h => by
      unfold tblLookup at h
      by_cases he : k0 = k
      · rw [if_pos he] at h
        simp at h
      · rw [if_neg he] at h
        unfold tblRemove
        rw [if_neg he]
        rw [tblRemove_absent t k h]

theorem isPrefixOf_mono : ∀ (p q l : List Char), p.isPrefixOf l = true →
    q.isPrefixOf l = true → p.length ≤ q.length → p.isPrefixOf q = true
  | [], q, l, _, _, _ => by simp [List.isPrefixOf]
  | a :: p, [], l, h1, h2, hlen => by simp at hlen
  | a :: p, b :: q, [], h1, h2, hlen => by simp [List.isPrefixOf] at h1
  | a :: p, b :: q, c :: l, h1, h2, hlen => by
      simp only [List.isPrefixOf, Bool.and_eq_true, beq_iff_eq] at h1 h2 ⊢
      obtain ⟨ha, hp⟩ := h1
      obtain ⟨hb, hq⟩ := h2
      refine ⟨ha.trans hb.symm, ?_⟩
      exact isPrefixOf_mono p q l hp hq (by simpa using hlen)

theorem prefix_conflict (p q s : String) (hlen : p.data.length ≤ q.data.length)
    (hpq : p.data.isPrefixOf q.data = false) (hq : strStartsWith s q = true) :
    strStartsWith s p = false := by
  by_contra hb
  rw [Bool.not_eq_false] at hb
  have hmono := isPrefixOf_mono p.data q.data s.data hb hq hlen
  rw [hpq] at hmono
  exact Bool.false_ne_true hmono

theorem layoutLoop_closed (c : Nat) (w h : Int) (hw : 0 < w)
    (hcw : (c : Int) * w = VIDEO_WIDTH) :
    ∀ (k j : Nat),
      layoutLoop k (((j % c : Nat) : Int) * w) (((j / c : Nat) : Int) * h) w h
        = (List.range k).map (fun t => tilePos c w h (j + t)) := by
  have hc : 0 < c := by
    rcases Nat.eq_zero_or_pos c with h0 | h0
    · subst h0
      rw [Nat.cast_zero, zero_mul] at hcw
      exact absurd hcw (by decide)
    · exact h0
  intro k
  induction k with
  | zero => intro j; simp [layoutLoop]
  | succ k ih =>
      intro j
      have hmod : j % c < c := Nat.mod_lt j hc
      have h2 : c * (j / c) + j % c = j := Nat.div_add_mod j c
      have hcond : (VIDEO_WIDTH ≤ ((j % c : Nat) : Int) * w + w) ↔ c ≤ j % c + 1 := by
        rw [← hcw]
        have he : ((j % c : Nat) : Int) * w + w = (((j % c : Nat) : Int) + 1) * w := by
          ring
        rw [he, mul_le_mul_right hw]
        constructor
        · intro hle
          exact_mod_cast hle
        · intro hle
          exact_mod_cast hle
      rw [List.range_succ_eq_map, List.map_cons, List.map_map]
      have hfun : ((fun t => tilePos c w h (j + t)) ∘ Nat.succ)
          = fun t => tilePos c w h (j + 1 + t) := by
        funext t
        simp only [Function.comp_apply]
        congr 1
        omega
      rw [hfun]
      simp only [layoutLoop]
      rw [List.cons_eq_cons]
      constructor
      · simp [tilePos]
      · by_cases hcase : c ≤ j % c + 1
        · rw [if_pos (hcond.mpr hcase)]
          have hjm : j % c + 1 = c := by omega
          have hjj : j + 1 = c * (j / c + 1) := by
            rw [Nat.mul_succ]
            omega
          have hmod1 : (j + 1) % c = 0 := by
            rw [hjj]
            exact Nat.mul_mod_right c _
          have hdiv1 : (j + 1) / c = j / c + 1 := by
            rw [hjj]
            exact Nat.mul_div_cancel_left _ hc
          have ihj := ih (j + 1)
          rw [hmod1, hdiv1] at ihj
          have e1 : ((0 : Nat) : Int) * w = 0 := by simp
          have e2 : ((j / c + 1 : Nat) : Int) * h = ((j / c : Nat) : Int) * h + h := by
            push_cast
            ring
          rw [e1, e2] at ihj
          exact ihj
        · rw [if_neg (fun hcc => hcase (hcond.mp hcc))]
          have hlt : j % c + 1 < c := by omega
          have hjj : j + 1 = c * (j / c) + (j % c + 1) := by omega
          have hmod1 : (j + 1) % c = j % c + 1 := by
            rw [hjj, Nat.mul_add_mod]
            exact Nat.mod_eq_of_lt hlt
          have hdiv1 : (j + 1) / c = j / c := by
            rw [hjj, Nat.mul_add_div hc, Nat.div_eq_of_lt hlt, Nat.add_zero]
          have ihj := ih (j + 1)
          rw [hmod1, hdiv1] at ihj
          have e3 : ((j % c + 1 : Nat) : Int) * w = ((j % c : Nat) : Int) * w + w := by
            push_cast
            ring
          rw [e3] at ihj
          exact ihj

/-- C9: encoding an `Ice{candidate, mlineIndex}` payload to its JSON
schema form and decoding it back yields the identical candidate and
mline index; likewise `Sdp{kind, body}` for kind ∈ {offer, answer}
round-trips to the identical kind and body. -/
theorem json_msg_roundtrip :
    (∀ (candidate : String) (idx : Nat),
        JsonMsg.fromJson (JsonMsg.toJson (.ice candidate idx))
          = some (.ice candidate idx)) ∧
    (∀ (kind body : String), kind = "offer" ∨ kind = "answer" →
        JsonMsg.fromJson (JsonMsg.toJson (.sdp kind body))
          = some (.sdp kind body)) := by
  constructor
  · intro candidate idx
    rfl
  · intro kind body hkind
    rfl

/-- Witness for C9 at a concrete candidate, index, kind and body. -/
theorem json_msg_roundtrip_witness :
    JsonMsg.fromJson (JsonMsg.toJson (.ice "cand0" 3)) = some (.ice "cand0" 3) ∧
    JsonMsg.fromJson (JsonMsg.toJson (.sdp "offer" "bodyX"))
      = some (.sdp "offer" "bodyX") :=
  ⟨json_msg_roundtrip.1 "cand0" 3, json_msg_roundtrip.2 "offer" "bodyX" (Or.inl rfl)⟩

/-- C10: an Sdp payload whose kind string is neither "offer" nor
"answer" is rejected by `handle_sdp` with an error, with no engine
action invoked and no outbound message emitted. -/
theorem handle_sdp_unknown_type_rejected (env : Env) (p : PeerSt)
    (type_ sdp : String) (h1 : type_ ≠ "answer") (h2 : type_ ≠ "offer") :
    handle_sdp env p type_ sdp =
      (.error ("Sdp type is not \x22answer\x22 but \x22" ++ type_ ++ "\x22"), []) := by
  unfold handle_sdp
  rw [if_neg h1, if_neg h2]

/-- Witness for C10 at the concrete kind string "pranswer". -/
theorem handle_sdp_unknown_type_rejected_witness :
    handle_sdp env0 { peer_id := 1 } "pranswer" "v=0" =
      (.error ("Sdp type is not \x22answer\x22 but \x22pranswer\x22"), []) :=
  handle_sdp_unknown_type_rejected env0 { peer_id := 1 } "pranswer" "v=0"
    (by decide) (by decide)

/-- C3 counterexample: a freshly created peer has never sent an offer
(spec state `Idle`), yet `handle_sdp` accepts an inbound answer and
mutates the engine-level session description (`set-remote-description`)
instead of rejecting it: the source performs no negotiation-state
check. -/
theorem handle_sdp_answer_idle_cex :
    handle_sdp env0 { peer_id := 3 } "answer" "v=0"
      = (.ok (), [.engine (.setRemoteDescription .answer "v=0")]) := by
  rfl

/-- C3 amended: handling an inbound Sdp answer performs no
negotiation-state check at all — whenever the body parses, the engine's
remote description is set to the parsed answer regardless of the peer's
state; only an unparseable answer is rejected (non-fatally, without any
engine mutation). -/
theorem handle_sdp_answer_unconditional (env : Env) (p : PeerSt) (sdp : String) :
    (env.sdpParse sdp = true →
      handle_sdp env p "answer" sdp
        = (.ok (), [.engine (.setRemoteDescription .answer sdp)])) ∧
    (env.sdpParse sdp = false →
      handle_sdp env p "answer" sdp = (.error "Failed to parse SDP answer", [])) := by
  constructor
  · intro hp
    simp [handle_sdp, hp]
  · intro hp
    simp [handle_sdp, hp]

/-- Witness for C3's amended theorem: a parseable and an unparseable
answer body, at a concrete environment and peer. -/
theorem handle_sdp_answer_unconditional_witness :
    handle_sdp env0 { peer_id := 4 } "answer" "v=0"
      = (.ok (), [.engine (.setRemoteDescription .answer "v=0")]) ∧
    handle_sdp env0 { peer_id := 4 } "answer" ""
      = (.error "Failed to parse SDP answer", []) :=
  ⟨(handle_sdp_answer_unconditional env0 { peer_id := 4 } "v=0").1 (by decide),
   (handle_sdp_answer_unconditional env0 { peer_id := 4 } "").2 (by decide)⟩

/-- C4: a parseable inbound Sdp offer is accepted and, when the
engine's `create-answer` promise resolves with an answer, leads to
exactly one emitted `Sdp{answer}` addressed to this peer id; the remote
description is set to the parsed offer before the answer is requested,
and the local description is set to the produced answer before the
emission (the trace order below). -/
theorem handle_sdp_offer_emits_one_answer (env : Env) (p : PeerSt) (sdp a : String)
    (hp : env.sdpParse sdp = true) (ha : env.answerReply = .ok a) :
    handle_sdp env p "offer" sdp =
      (.ok (),
       [.engine (.setRemoteDescription .offer sdp),
        .engine .createAnswer,
        .engine (.setLocalDescription .answer a),
        .emit (.peerMsg p.peer_id (.sdp "answer" a))]) ∧
    emittedOf (handle_sdp env p "offer" sdp).2
      = [.peerMsg p.peer_id (.sdp "answer" a)] := by
  have hmain : handle_sdp env p "offer" sdp =
      (.ok (),
       [.engine (.setRemoteDescription .offer sdp),
        .engine .createAnswer,
        .engine (.setLocalDescription .answer a),
        .emit (.peerMsg p.peer_id (.sdp "answer" a))]) := by
    simp [handle_sdp, on_answer_created, hp, ha]
  refine ⟨hmain, ?_⟩
  rw [hmain]
  rfl

/-- Witness for C4 at a concrete environment, peer and offer body. -/
theorem handle_sdp_offer_emits_one_answer_witness :
    handle_sdp env0 { peer_id := 6 } "offer" "v=0" =
      (.ok (),
       [.engine (.setRemoteDescription .offer "v=0"),
        .engine .createAnswer,
        .engine (.setLocalDescription .answer "sdpAnswerA"),
        .emit (.peerMsg 6 (.sdp "answer" "sdpAnswerA"))]) ∧
    emittedOf (handle_sdp env0 { peer_id := 6 } "offer" "v=0").2
      = [.peerMsg 6 (.sdp "answer" "sdpAnswerA")] :=
  handle_sdp_offer_emits_one_answer env0 { peer_id := 6 } "v=0" "sdpAnswerA"
    (by decide) (by rfl)

/-- C5: adding the same peer id twice with no intervening removal makes
the second `add_peer` fail, and the failure leaves both the table state
and the first peer's entry unchanged. -/
theorem add_peer_duplicate_fails (st : AppState) (s : String) (off1 off2 : Bool)
    (id : Nat) (hid : parse_u32 s = some id)
    (h1 : (add_peer st s off1).2 = .ok ()) :
    add_peer (add_peer st s off1).1 s off2
      = ((add_peer st s off1).1, .error ("Peer " ++ toString id ++ " already called")) ∧
    tblLookup (add_peer st s off1).1.peers id = some { peer_id := id } := by
  rcases hl : tblLookup st.peers id with _ | p
  · have hok : add_peer st s off1
        = ({ peers := tblInsert st.peers id { peer_id := id } }, .ok ()) := by
      simp [add_peer, hid, hl]
    have hnew : tblLookup (add_peer st s off1).1.peers id = some { peer_id := id } := by
      rw [hok]
      exact tblLookup_insert st.peers id { peer_id := id }
    refine ⟨?_, hnew⟩
    set st1 := (add_peer st s off1).1 with hst1
    simp [add_peer, hid, hnew]
  · exfalso
    unfold add_peer at h1
    rw [hid] at h1
    simp [hl] at h1

/-- Witness for C5: adding peer "3" twice to the empty table. -/
theorem add_peer_duplicate_fails_witness :
    add_peer (add_peer { peers := [] } "3" true).1 "3" false
      = ((add_peer { peers := [] } "3" true).1, .error "Peer 3 already called") ∧
    tblLookup (add_peer { peers := [] } "3" true).1.peers 3 = some { peer_id := 3 } :=
  add_peer_duplicate_fails { peers := [] } "3" true false 3 (by decide) (by rfl)

/-- C6: removing a well-formed peer id that is absent from the table
succeeds as a no-op and leaves the peer table unchanged. -/
theorem remove_peer_absent_noop (st : AppState) (s : String) (id : Nat)
    (hid : parse_u32 s = some id) (habs : tblLookup st.peers id = none) :
    remove_peer st s = (st, .ok ()) := by
  simp [remove_peer, hid, tblRemove_absent st.peers id habs]

/-- Witness for C6: removing the absent peer "9" from a table holding
only peer 7. -/
theorem remove_peer_absent_noop_witness :
    remove_peer stw "9" = (stw, .ok ()) :=
  remove_peer_absent_noop stw "9" 9 (by decide) (by decide)

/-- C8: a pipeline error event makes the event loop stop immediately
(the remaining schedule is not processed) and propagates the formatted
error to the caller; a warning event is only logged — application
state, outbox and sent messages are unchanged and the loop continues. -/
theorem pipeline_event_fatal_or_logged (env : Env) (st : LoopState)
    (rest : List LoopEvent) :
    (∀ src m debug,
       runLoop env (.gstIn (.error src m debug) :: rest) st
         = (st, .error ("Error from element " ++ src ++ ": " ++ m ++ " (" ++ debug ++ ")"))) ∧
    (∀ debug,
       handle_pipeline_message (.warning debug)
         = (.ok (), ["Warning: \x22" ++ debug ++ "\x22"]) ∧
       runLoop env (.gstIn (.warning debug) :: rest) st
         = runLoop env rest { st with logs := st.logs ++ ["Warning: \x22" ++ debug ++ "\x22"] }) := by
  constructor
  · intro src m debug
    rfl
  · intro debug
    exact ⟨rfl, rfl⟩

/-- C2 counterexample: with n = 17 fan-in connections besides the
background (18 mixer pads in total), the seventeenth tile is placed at
y = 768 with height 192, i.e. below the 1024×768 canvas — so not every
tile lies within the canvas bounds when n > 16. -/
theorem relayout_out_of_bounds_cex :
    (0, 768, 256, 192) ∈ relayout_videomixer 18 ∧
    ¬ tilesInBounds (relayout_videomixer 18) := by
  decide

/-- C2 amended: for every n ≥ 0 (excluding the fixed background input),
the layout is the row-major grid with columns = rows = `specCols n`
(1 for n ≤ 1, 2 for n ≤ 4, 4 for n ≤ 16 and also beyond — capped), each
tile sized canvas-width/columns × canvas-height/rows; and for n ≤ 16
every tile lies within the canvas bounds and the tiles are pairwise
disjoint.  (For n > 16 the tiles from the seventeenth on fall outside
the canvas; see the counterexample.) -/
theorem relayout_videomixer_grid (n : Nat) :
    relayout_videomixer (n + 1)
      = (List.range n).map
          (tilePos (specCols n) (VIDEO_WIDTH / (specCols n : Int))
            (VIDEO_HEIGHT / (specCols n : Int))) ∧
    (n ≤ 16 →
      tilesInBounds (relayout_videomixer (n + 1)) ∧
      List.Pairwise tileDisjoint (relayout_videomixer (n + 1))) := by
  have hbounded : ∀ m, m < 17 →
      tilesInBounds (relayout_videomixer (m + 1)) ∧
      List.Pairwise tileDisjoint (relayout_videomixer (m + 1)) := by decide
  have key : ∀ (c : Nat), 0 < (VIDEO_WIDTH / (c : Int)) →
      (c : Int) * (VIDEO_WIDTH / (c : Int)) = VIDEO_WIDTH →
      layoutLoop n 0 0 (VIDEO_WIDTH / (c : Int)) (VIDEO_HEIGHT / (c : Int))
        = (List.range n).map
            (tilePos c (VIDEO_WIDTH / (c : Int)) (VIDEO_HEIGHT / (c : Int))) := by
    intro c hw hcw
    have h0 := layoutLoop_closed c (VIDEO_WIDTH / (c : Int))
      (VIDEO_HEIGHT / (c : Int)) hw hcw n 0
    simpa using h0
  constructor
  · have hgrid : mixerGrid n
        = (((specCols n : Nat) : Int), ((specCols n : Nat) : Int)) := by
      unfold mixerGrid specCols
      by_cases a1 : n ≤ 1
      · simp [a1]
      · by_cases a2 : n ≤ 4
        · simp [a1, a2]
        · by_cases a3 : n ≤ 16
          · simp [a1, a2, a3]
          · simp [a1, a2, a3]
    have hc14 : specCols n = 1 ∨ specCols n = 2 ∨ specCols n = 4 := by
      unfold specCols
      by_cases a1 : n ≤ 1
      · simp [a1]
      · by_cases a2 : n ≤ 4
        · simp [a1, a2]
        · simp [a1, a2]
    unfold relayout_videomixer
    rw [if_neg (Nat.succ_ne_zero n)]
    simp only [Nat.add_sub_cancel, hgrid]
    rcases hc14 with hce | hce | hce <;> rw [hce] <;>
      exact key _ (by decide) (by decide)
  · intro hn
    exact hbounded n (by omega)

/-- Witness for C2's amended theorem at n = 3: a 2×2 grid of 512×384
tiles, in bounds and pairwise disjoint. -/
theorem relayout_videomixer_grid_witness :
    relayout_videomixer 4 = [(0, 0, 512, 384), (512, 0, 512, 384), (0, 384, 512, 384)] ∧
    (tilesInBounds (relayout_videomixer 4) ∧
      List.Pairwise tileDisjoint (relayout_videomixer 4)) :=
  ⟨(relayout_videomixer_grid 3).1, (relayout_videomixer_grid 3).2 (by decide)⟩

theorem prefix_conflict2 (p q s : String) (hlen : q.data.length ≤ p.data.length)
    (hqp : q.data.isPrefixOf p.data = false) (hq : strStartsWith s q = true) :
    strStartsWith s p = false := by
  by_contra hb
  rw [Bool.not_eq_false] at hb
  have hmono := isPrefixOf_mono q.data p.data s.data hq hb hlen
  rw [hqp] at hmono
  exact Bool.false_ne_true hmono

/-- C7: the dispatcher routes every inbound line by prefix —
`ERROR...` to an error return (state untouched), `ROOM_PEER_MSG <id>
<json>` to the named peer's `handle_sdp`/`handle_ice`,
`ROOM_PEER_JOINED <id>` to `add_peer` with `initiateOffer = false`,
`ROOM_PEER_LEFT <id>` to `remove_peer`, and any line matching none of
these prefixes to a success with no state change. -/
theorem handle_websocket_message_routes (env : Env) (st : AppState) :
    (∀ msg, strStartsWith msg "ERROR" = true →
       handle_websocket_message env st msg
         = (st, .error ("Got error message: " ++ msg), [])) ∧
    (∀ msg peer_id peer payload jm,
       strStartsWith msg "ROOM_PEER_MSG " = true →
       parse_u32 (splitn2 (strDrop msg 14)).1 = some peer_id →
       tblLookup st.peers peer_id = some peer →
       (splitn2 (strDrop msg 14)).2 = some payload →
       env.fromStr payload = some jm →
       handle_websocket_message env st msg
         = (st,
            (match jm with
             | .sdp type_ body => handle_sdp env peer type_ body
             | .ice cand idx => handle_ice peer idx cand))) ∧
    (∀ msg, strStartsWith msg "ROOM_PEER_JOINED " = true →
       handle_websocket_message env st msg
         = ((add_peer st (splitn2 (strDrop msg 17)).1 false).1,
            (add_peer st (splitn2 (strDrop msg 17)).1 false).2, [])) ∧
    (∀ msg, strStartsWith msg "ROOM_PEER_LEFT " = true →
       handle_websocket_message env st msg
         = ((remove_peer st (splitn2 (strDrop msg 15)).1).1,
            (remove_peer st (splitn2 (strDrop msg 15)).1).2, [])) ∧
    (∀ msg, strStartsWith msg "ERROR" = false →
       strStartsWith msg "ROOM_PEER_MSG " = false →
       strStartsWith msg "ROOM_PEER_JOINED " = false →
       strStartsWith msg "ROOM_PEER_LEFT " = false →
       handle_websocket_message env st msg = (st, .ok (), [])) := by
  refine ⟨?_, ?_, ?_, ?_, ?_⟩
  · intro msg h
    simp [handle_websocket_message, h]
  · intro msg peer_id peer payload jm h hpid hpeer hpay hfrom
    have hne : strStartsWith msg "ERROR" = false :=
      prefix_conflict "ERROR" "ROOM_PEER_MSG " msg (by decide) (by decide) h
    cases jm with
    | sdp type_ body =>
        simp [handle_websocket_message, hne, h, hpid, hpeer, hpay, hfrom]
    | ice cand idx =>
        simp [handle_websocket_message, hne, h, hpid, hpeer, hpay, hfrom]
  · intro msg h
    have hne1 : strStartsWith msg "ERROR" = false :=
      prefix_conflict "ERROR" "ROOM_PEER_JOINED " msg (by decide) (by decide) h
    have hne2 : strStartsWith msg "ROOM_PEER_MSG " = false :=
      prefix_conflict "ROOM_PEER_MSG " "ROOM_PEER_JOINED " msg (by decide) (by decide) h
    simp [handle_websocket_message, hne1, hne2, h]
  · intro msg h
    have hne1 : strStartsWith msg "ERROR" = false :=
      prefix_conflict "ERROR" "ROOM_PEER_LEFT " msg (by decide) (by decide) h
    have hne2 : strStartsWith msg "ROOM_PEER_MSG " = false :=
      prefix_conflict "ROOM_PEER_MSG " "ROOM_PEER_LEFT " msg (by decide) (by decide) h
    have hne3 : strStartsWith msg "ROOM_PEER_JOINED " = false :=
      prefix_conflict2 "ROOM_PEER_JOINED " "ROOM_PEER_LEFT " msg (by decide) (by decide) h
    simp [handle_websocket_message, hne1, hne2, hne3, h]
  · intro msg h1 h2 h3 h4
    simp [handle_websocket_message, h1, h2, h3, h4]

/-- Witness for C7: one concrete line per routing clause. -/
theorem handle_websocket_message_routes_witness :
    handle_websocket_message envw stw "ERROR x"
      = (stw, .error "Got error message: ERROR x", []) ∧
    handle_websocket_message envw stw "ROOM_PEER_MSG 7 icejson"
      = (stw, .ok (), [.engine (.addIceCandidate 2 "cand")]) ∧
    handle_websocket_message envw stw "ROOM_PEER_JOINED 5"
      = ({ peers := [(5, { peer_id := 5 }), (7, { peer_id := 7 })] }, .ok (), []) ∧
    handle_websocket_message envw stw "ROOM_PEER_LEFT 9" = (stw, .ok (), []) ∧
    handle_websocket_message envw stw "HELLO" = (stw, .ok (), []) :=
  ⟨(handle_websocket_message_routes envw stw).1 "ERROR x" (by decide),
   (handle_websocket_message_routes envw stw).2.1 "ROOM_PEER_MSG 7 icejson"
     7 { peer_id := 7 } "icejson" (.ice "cand" 2)
     (by decide) (by decide) (by decide) (by decide) (by decide),
   (handle_websocket_message_routes envw stw).2.2.1 "ROOM_PEER_JOINED 5" (by decide),
   (handle_websocket_message_routes envw stw).2.2.2.1 "ROOM_PEER_LEFT 9" (by decide),
   (handle_websocket_message_routes envw stw).2.2.2.2 "HELLO"
     (by decide) (by decide) (by decide) (by decide)⟩

/-- C1 counterexample: after receiving `ERROR not authorized` the loop
does not terminate with an error — it finishes the schedule with an
`ok` outcome, and the `ROOM_PEER_JOINED 5` line received afterwards is
still dispatched (peer 5 ends up in the table). -/
theorem runLoop_error_line_continues_cex :
    runLoop env0
      [.wsIn (.text "ERROR not authorized"), .wsIn (.text "ROOM_PEER_JOINED 5")] st0
      = ({ app := { peers := [(5, { peer_id := 5 })] },
           outbox := [], sent := [],
           logs := ["Failed to parse message: Got error message: ERROR not authorized"],
           engineTrace := [] },
         .ok ()) := by
  rfl

/-- C1 amended: a signaling line beginning with `ERROR` makes the
dispatcher return an error and leaves the application state unchanged,
but the event loop only logs "Failed to parse message: ..." and
continues with the remaining schedule — subsequent signaling is still
dispatched. -/
theorem error_line_logged_and_loop_continues (env : Env) (st : LoopState)
    (s : String) (rest : List LoopEvent)
    (hs : strStartsWith s "ERROR" = true) :
    handle_websocket_message env st.app s
      = (st.app, .error ("Got error message: " ++ s), []) ∧
    runLoop env (.wsIn (.text s) :: rest) st
      = runLoop env rest
          { st with logs := st.logs ++
              ["Failed to parse message: " ++ ("Got error message: " ++ s)] } := by
  have hd : handle_websocket_message env st.app s
      = (st.app, .error ("Got error message: " ++ s), []) := by
    simp [handle_websocket_message, hs]
  refine ⟨hd, ?_⟩
  simp [runLoop, hd, emittedOf]

/-- Witness for C1's amended theorem at a concrete error line. -/
theorem error_line_logged_and_loop_continues_witness :
    handle_websocket_message env0 st0.app "ERROR bad"
      = (st0.app, .error "Got error message: ERROR bad", []) ∧
    runLoop env0 [.wsIn (.text "ERROR bad")] st0
      = runLoop env0 []
          { st0 with logs := st0.logs ++
              ["Failed to parse message: Got error message: ERROR bad"] } :=
  error_line_logged_and_loop_continues env0 st0 "ERROR bad" [] (by decide)
